import Mathlib

/-
Verification of the Windows-sandbox precedence-resolution core
(`core/src/windows_sandbox.rs`): the Level Resolver
(`WindowsSandboxLevel::from_config` / `from_features`) and the Mode
Resolver (`resolve_windows_sandbox_mode`) together with the legacy
flag shim (`legacy_windows_sandbox_mode_from_entries`,
`legacy_windows_sandbox_keys_present`).
-/

namespace WindowsSandbox

/-- Modelled from the spec: the effective tri-state isolation level
(`codex_protocol::config_types::WindowsSandboxLevel`), owned by the protocol
crate outside this core. One of Disabled, RestrictedToken, Elevated. -/
inductive WindowsSandboxLevel where
  | Disabled
  | RestrictedToken
  | Elevated
  deriving DecidableEq, Repr

/-- Modelled from the spec: the two-valued structured sandbox setting found in
raw configuration (`WindowsSandboxModeToml`), owned by the config-types module
outside this core. One of Elevated, Unelevated; absence is represented by
`Option`. -/
inductive WindowsSandboxModeToml where
  | Elevated
  | Unelevated
  deriving DecidableEq, Repr

/-- Modelled from the spec: the feature registry's recognized keys relevant to
this core, `WindowsSandbox` and `WindowsSandboxElevated`. -/
inductive Feature where
  | WindowsSandbox
  | WindowsSandboxElevated
  deriving DecidableEq, Repr

/-- Modelled from the spec: the exact external key names owned by the feature
registry collaborator: "windows_sandbox" and "windows_sandbox_elevated". -/
def Feature.key : Feature → String
  | Feature.WindowsSandbox => "windows_sandbox"
  | Feature.WindowsSandboxElevated => "windows_sandbox_elevated"

/-- Modelled from the spec: the merged feature-flag set consumed by the Level
Resolver through the lookup capability `enabled(feature_key) -> bool`. -/
structure Features where
  enabled : Feature → Bool

/-- Modelled from the spec: a raw feature-flag mapping of feature key (string)
to boolean enablement (`FeaturesToml`, backed by `BTreeMap<String, bool>`).
Embedded as an association list; `contains_key` and `get` are the only map
operations this core uses. -/
structure FeaturesToml where
  entries : List (String × Bool)

/-- Embedding of `BTreeMap::contains_key` on the entries list. -/
def containsKey (entries : List (String × Bool)) (k : String) : Bool :=
  (entries.lookup k).isSome

/-- Embedding of `entries.get(k).copied().unwrap_or(false)`: a missing key is
treated as `false`. -/
def getOrFalse (entries : List (String × Bool)) (k : String) : Bool :=
  (entries.lookup k).getD false

/-- Modelled from the spec: the optional per-layer structured windows section
of a raw config fragment, carrying the optional structured sandbox setting. -/
structure WindowsToml where
  sandbox : Option WindowsSandboxModeToml

/-- Modelled from the spec: the raw global configuration document fragment
(`ConfigToml`), optionally carrying a structured windows section and a
feature-flag mapping. -/
structure ConfigToml where
  windows : Option WindowsToml
  features : Option FeaturesToml

/-- Modelled from the spec: a raw named profile override fragment
(`ConfigProfile`), optionally carrying a structured windows section and a
feature-flag mapping. -/
structure ConfigProfile where
  windows : Option WindowsToml
  features : Option FeaturesToml

/-- Modelled from the spec: the permissions section of the fully merged
`Config`, carrying the one merged structured sandbox setting. -/
structure Permissions where
  windows_sandbox_mode : Option WindowsSandboxModeToml

/-- Modelled from the spec: the fully merged runtime configuration (`Config`),
carrying one structured sandbox setting and one merged feature-flag set. -/
structure Config where
  permissions : Permissions
  features : Features

/-- Embedding of `WindowsSandboxLevel::from_features`. -/
def WindowsSandboxLevel.from_features (features : Features) : WindowsSandboxLevel :=
  if features.enabled Feature.WindowsSandboxElevated then
    WindowsSandboxLevel.Elevated
  else if features.enabled Feature.WindowsSandbox then
    WindowsSandboxLevel.RestrictedToken
  else
    WindowsSandboxLevel.Disabled

/-- Embedding of `WindowsSandboxLevel::from_config`. -/
def WindowsSandboxLevel.from_config (config : Config) : WindowsSandboxLevel :=
  match config.permissions.windows_sandbox_mode with
  | some WindowsSandboxModeToml.Elevated => WindowsSandboxLevel.Elevated
  | some WindowsSandboxModeToml.Unelevated => WindowsSandboxLevel.RestrictedToken
  | none => WindowsSandboxLevel.from_features config.features

/-- Embedding of `windows_sandbox_level_from_config`. -/
def windows_sandbox_level_from_config (config : Config) : WindowsSandboxLevel :=
  WindowsSandboxLevel.from_config config

/-- Embedding of `windows_sandbox_level_from_features`. -/
def windows_sandbox_level_from_features (features : Features) : WindowsSandboxLevel :=
  WindowsSandboxLevel.from_features features

/-- Embedding of `legacy_windows_sandbox_mode_from_entries`. -/
def legacy_windows_sandbox_mode_from_entries
    (entries : List (String × Bool)) : Option WindowsSandboxModeToml :=
  if getOrFalse entries (Feature.key Feature.WindowsSandboxElevated) then
    some WindowsSandboxModeToml.Elevated
  else if getOrFalse entries (Feature.key Feature.WindowsSandbox)
      || getOrFalse entries "enable_experimental_windows_sandbox" then
    some WindowsSandboxModeToml.Unelevated
  else
    none

/-- Embedding of `legacy_windows_sandbox_mode` (the `?` on
`features.map(|f| &f.entries)` returns `None` for an absent mapping). -/
def legacy_windows_sandbox_mode
    (features : Option FeaturesToml) : Option WindowsSandboxModeToml :=
  match features with
  | none => none
  | some f => legacy_windows_sandbox_mode_from_entries f.entries

/-- Embedding of `legacy_windows_sandbox_keys_present`. -/
def legacy_windows_sandbox_keys_present (features : Option FeaturesToml) : Bool :=
  match features with
  | none => false
  | some f =>
      containsKey f.entries (Feature.key Feature.WindowsSandboxElevated)
        || containsKey f.entries (Feature.key Feature.WindowsSandbox)
        || containsKey f.entries "enable_experimental_windows_sandbox"

/-- Embedding of `resolve_windows_sandbox_mode`. -/
def resolve_windows_sandbox_mode
    (cfg : ConfigToml) (profile : ConfigProfile) : Option WindowsSandboxModeToml :=
  match legacy_windows_sandbox_mode profile.features with
  | some mode => some mode
  | none =>
      if legacy_windows_sandbox_keys_present profile.features then
        none
      else
        (profile.windows.bind fun w => w.sandbox).orElse fun _ =>
          (cfg.windows.bind fun w => w.sandbox).orElse fun _ =>
            legacy_windows_sandbox_mode cfg.features

/-- A key that is not contained in the mapping reads as `false`. -/
theorem getOrFalse_eq_false_of_not_contains (entries : List (String × Bool))
    (k : String) (h : containsKey entries k = false) :
    getOrFalse entries k = false := by
  have h' : (entries.lookup k).isSome = false := h
  unfold getOrFalse
  cases hl : entries.lookup k with
  | none => rfl
  | some b =>
      rw [hl] at h'
      exact absurd h' (by simp)

/-- When none of the three legacy keys is present, the legacy-mode
sub-algorithm yields no mode. -/
theorem legacy_mode_none_of_keys_absent (features : Option FeaturesToml)
    (h : legacy_windows_sandbox_keys_present features = false) :
    legacy_windows_sandbox_mode features = none := by
  cases features with
  | none => rfl
  | some f =>
      have h' : (containsKey f.entries (Feature.key Feature.WindowsSandboxElevated)
          || containsKey f.entries (Feature.key Feature.WindowsSandbox)
          || containsKey f.entries "enable_experimental_windows_sandbox") = false := h
      rw [Bool.or_eq_false_iff, Bool.or_eq_false_iff] at h'
      obtain ⟨⟨h1, h2⟩, h3⟩ := h'
      show legacy_windows_sandbox_mode_from_entries f.entries = none
      unfold legacy_windows_sandbox_mode_from_entries
      rw [getOrFalse_eq_false_of_not_contains _ _ h1,
        getOrFalse_eq_false_of_not_contains _ _ h2,
        getOrFalse_eq_false_of_not_contains _ _ h3]
      simp

/-- C1: whenever the profile's feature-flag mapping contains at least one of
the three legacy keys but the legacy sub-algorithm yields no mode,
`resolve_windows_sandbox_mode` returns `none` for every document, never
falling through to the structured settings or the document's flags. -/
theorem C1_opt_out_guard_stops_resolution (cfg : ConfigToml) (profile : ConfigProfile)
    (hpresent : legacy_windows_sandbox_keys_present profile.features = true)
    (hnone : legacy_windows_sandbox_mode profile.features = none) :
    resolve_windows_sandbox_mode cfg profile = none := by
  unfold resolve_windows_sandbox_mode
  rw [hnone, hpresent]
  simp

/-- Witness for C1: profile flags containing only `windows_sandbox = false`
block resolution even though the document carries a structured `Elevated`
setting. -/
theorem C1_witness :
    resolve_windows_sandbox_mode
      ⟨some ⟨some WindowsSandboxModeToml.Elevated⟩, none⟩
      ⟨none, some ⟨[("windows_sandbox", false)]⟩⟩ = none :=
  C1_opt_out_guard_stops_resolution _ _ rfl rfl

/-- C2: `resolve_level_from_flags` (`WindowsSandboxLevel::from_features`) is a
strict two-level priority chain: an enabled elevated key yields `Elevated`
regardless of the base key; otherwise an enabled base key yields
`RestrictedToken` and a disabled one yields `Disabled`. -/
theorem C2_from_features_priority_chain (f : Features) :
    (f.enabled Feature.WindowsSandboxElevated = true →
      windows_sandbox_level_from_features f = WindowsSandboxLevel.Elevated) ∧
    (f.enabled Feature.WindowsSandboxElevated = false →
      f.enabled Feature.WindowsSandbox = true →
      windows_sandbox_level_from_features f = WindowsSandboxLevel.RestrictedToken) ∧
    (f.enabled Feature.WindowsSandboxElevated = false →
      f.enabled Feature.WindowsSandbox = false →
      windows_sandbox_level_from_features f = WindowsSandboxLevel.Disabled) := by
  unfold windows_sandbox_level_from_features WindowsSandboxLevel.from_features
  refine ⟨fun h1 => ?_, fun h1 h2 => ?_, fun h1 h2 => ?_⟩ <;> simp [*]

/-- Witness for C2: elevated enabled together with the base key enabled still
resolves to `Elevated`. -/
theorem C2_witness :
    windows_sandbox_level_from_features ⟨fun _ => true⟩ =
      WindowsSandboxLevel.Elevated :=
  (C2_from_features_priority_chain ⟨fun _ => true⟩).1 rfl

/-- C3: when the merged config carries a structured sandbox setting,
`resolve_level` (`WindowsSandboxLevel::from_config`) maps it directly
(`Elevated` to `Elevated`, `Unelevated` to `RestrictedToken`) and the feature
flags are never consulted (the result is invariant under any change of
flags); only an absent setting falls back to the flag resolver. -/
theorem C3_structured_setting_overrides_flags
    (p : Option WindowsSandboxModeToml) (f g : Features) :
    (p = some WindowsSandboxModeToml.Elevated →
      windows_sandbox_level_from_config ⟨⟨p⟩, f⟩ = WindowsSandboxLevel.Elevated) ∧
    (p = some WindowsSandboxModeToml.Unelevated →
      windows_sandbox_level_from_config ⟨⟨p⟩, f⟩ = WindowsSandboxLevel.RestrictedToken) ∧
    (p ≠ none →
      windows_sandbox_level_from_config ⟨⟨p⟩, f⟩ =
        windows_sandbox_level_from_config ⟨⟨p⟩, g⟩) ∧
    (p = none →
      windows_sandbox_level_from_config ⟨⟨p⟩, f⟩ =
        windows_sandbox_level_from_features f) := by
  cases p with
  | none =>
      simp [windows_sandbox_level_from_config, WindowsSandboxLevel.from_config,
        windows_sandbox_level_from_features]
  | some m =>
      cases m <;>
        simp [windows_sandbox_level_from_config, WindowsSandboxLevel.from_config]

/-- Witness for C3: a structured `Unelevated` setting wins over flags that
would by themselves yield `Elevated`. -/
theorem C3_witness :
    windows_sandbox_level_from_config
      ⟨⟨some WindowsSandboxModeToml.Unelevated⟩, ⟨fun _ => true⟩⟩ =
      WindowsSandboxLevel.RestrictedToken :=
  (C3_structured_setting_overrides_flags (some WindowsSandboxModeToml.Unelevated)
    ⟨fun _ => true⟩ ⟨fun _ => true⟩).2.1 rfl

/-- C4: the legacy-mode sub-algorithm returns `some Elevated` when the
elevated legacy key reads `true`; otherwise `some Unelevated` when the base
key or the experimental key "enable_experimental_windows_sandbox" reads
`true`; otherwise `none`; a missing key reads as `false`. In particular the
experimental key alone behaves exactly like the base key alone. -/
theorem C4_legacy_mode_from_entries_spec (entries : List (String × Bool)) :
    (getOrFalse entries "windows_sandbox_elevated" = true →
      legacy_windows_sandbox_mode_from_entries entries =
        some WindowsSandboxModeToml.Elevated) ∧
    (getOrFalse entries "windows_sandbox_elevated" = false →
      (getOrFalse entries "windows_sandbox" = true ∨
        getOrFalse entries "enable_experimental_windows_sandbox" = true) →
      legacy_windows_sandbox_mode_from_entries entries =
        some WindowsSandboxModeToml.Unelevated) ∧
    (getOrFalse entries "windows_sandbox_elevated" = false →
      getOrFalse entries "windows_sandbox" = false →
      getOrFalse entries "enable_experimental_windows_sandbox" = false →
      legacy_windows_sandbox_mode_from_entries entries = none) ∧
    legacy_windows_sandbox_mode_from_entries
        [("enable_experimental_windows_sandbox", true)] =
      some WindowsSandboxModeToml.Unelevated ∧
    legacy_windows_sandbox_mode_from_entries [("windows_sandbox", true)] =
      some WindowsSandboxModeToml.Unelevated := by
  unfold legacy_windows_sandbox_mode_from_entries
  refine ⟨fun h1 => ?_, fun h1 h2 => ?_, fun h1 h2 h3 => ?_, rfl, rfl⟩ <;>
    simp [Feature.key, *]

/-- Witness for C4: the elevated legacy key set to `true` yields
`some Elevated`. -/
theorem C4_witness :
    legacy_windows_sandbox_mode_from_entries [("windows_sandbox_elevated", true)] =
      some WindowsSandboxModeToml.Elevated :=
  (C4_legacy_mode_from_entries_spec [("windows_sandbox_elevated", true)]).1 rfl

/-- C5: when the legacy sub-algorithm on the profile's flags yields a mode,
`resolve_windows_sandbox_mode` returns that mode immediately for every
document and every profile structured setting: no later step is consulted. -/
theorem C5_profile_legacy_flags_short_circuit (cfg : ConfigToml)
    (profile : ConfigProfile) (m : WindowsSandboxModeToml)
    (h : legacy_windows_sandbox_mode profile.features = some m) :
    resolve_windows_sandbox_mode cfg profile = some m := by
  unfold resolve_windows_sandbox_mode
  rw [h]

/-- Witness for C5: profile flags `elevated = false, sandbox = true` resolve
to `some Unelevated` even though the document carries a structured `Elevated`
setting. -/
theorem C5_witness :
    resolve_windows_sandbox_mode
      ⟨some ⟨some WindowsSandboxModeToml.Elevated⟩, none⟩
      ⟨none, some ⟨[("windows_sandbox_elevated", false), ("windows_sandbox", true)]⟩⟩ =
      some WindowsSandboxModeToml.Unelevated :=
  C5_profile_legacy_flags_short_circuit _ _ _ rfl

/-- C6: when neither the profile's legacy flags yield a mode nor any legacy
key is present on the profile's mapping, resolution falls through in order:
the profile's structured setting, then the document's structured setting,
then the legacy sub-algorithm on the document's flags (which is `none` when
everything is absent). -/
theorem C6_structured_fallthrough_chain (cfg : ConfigToml) (profile : ConfigProfile)
    (h1 : legacy_windows_sandbox_mode profile.features = none)
    (h2 : legacy_windows_sandbox_keys_present profile.features = false) :
    (∀ m, profile.windows.bind (fun w => w.sandbox) = some m →
      resolve_windows_sandbox_mode cfg profile = some m) ∧
    (profile.windows.bind (fun w => w.sandbox) = none →
      ∀ m, cfg.windows.bind (fun w => w.sandbox) = some m →
        resolve_windows_sandbox_mode cfg profile = some m) ∧
    (profile.windows.bind (fun w => w.sandbox) = none →
      cfg.windows.bind (fun w => w.sandbox) = none →
      resolve_windows_sandbox_mode cfg profile =
        legacy_windows_sandbox_mode cfg.features) := by
  simp only [resolve_windows_sandbox_mode, h1, h2]
  refine ⟨fun m hm => ?_, fun hp m hm => ?_, fun hp hc => ?_⟩ <;>
    simp [Option.orElse, *]

/-- Witness for C6: an empty profile with a document structured `Elevated`
setting resolves to `some Elevated`, and an entirely empty configuration
resolves to `none`. -/
theorem C6_witness :
    resolve_windows_sandbox_mode
        ⟨some ⟨some WindowsSandboxModeToml.Elevated⟩, none⟩ ⟨none, none⟩ =
      some WindowsSandboxModeToml.Elevated ∧
    resolve_windows_sandbox_mode ⟨none, none⟩ ⟨none, none⟩ = none :=
  ⟨(C6_structured_fallthrough_chain ⟨some ⟨some WindowsSandboxModeToml.Elevated⟩, none⟩
      ⟨none, none⟩ rfl rfl).2.1 rfl WindowsSandboxModeToml.Elevated rfl,
    ((C6_structured_fallthrough_chain ⟨none, none⟩ ⟨none, none⟩ rfl rfl).2.2
      rfl rfl).trans rfl⟩

/-- C7: both resolvers are total: `resolve_level` always returns one of the
three `SandboxLevel` variants and `resolve_mode` always returns a defined
`Option` value, for every input. -/
theorem C7_totality (config : Config) (cfg : ConfigToml) (profile : ConfigProfile) :
    (windows_sandbox_level_from_config config = WindowsSandboxLevel.Disabled ∨
      windows_sandbox_level_from_config config = WindowsSandboxLevel.RestrictedToken ∨
      windows_sandbox_level_from_config config = WindowsSandboxLevel.Elevated) ∧
    (resolve_windows_sandbox_mode cfg profile = none ∨
      resolve_windows_sandbox_mode cfg profile = some WindowsSandboxModeToml.Elevated ∨
      resolve_windows_sandbox_mode cfg profile = some WindowsSandboxModeToml.Unelevated) := by
  constructor
  · cases h : windows_sandbox_level_from_config config <;> simp
  · rcases h : resolve_windows_sandbox_mode cfg profile with _ | m
    · simp
    · cases m <;> simp

/-- C8: both resolvers are deterministic functions of their inputs: equal
configurations give equal levels and equal document-profile pairs give equal
modes. -/
theorem C8_determinism (c1 c2 : Config) (d1 d2 : ConfigToml) (p1 p2 : ConfigProfile)
    (hc : c1 = c2) (hd : d1 = d2) (hp : p1 = p2) :
    windows_sandbox_level_from_config c1 = windows_sandbox_level_from_config c2 ∧
    resolve_windows_sandbox_mode d1 p1 = resolve_windows_sandbox_mode d2 p2 := by
  subst hc
  subst hd
  subst hp
  exact ⟨rfl, rfl⟩

/-- Witness for C8 at a concrete configuration. -/
theorem C8_witness :
    windows_sandbox_level_from_config ⟨⟨none⟩, ⟨fun _ => false⟩⟩ =
      windows_sandbox_level_from_config ⟨⟨none⟩, ⟨fun _ => false⟩⟩ ∧
    resolve_windows_sandbox_mode ⟨none, none⟩ ⟨none, none⟩ =
      resolve_windows_sandbox_mode ⟨none, none⟩ ⟨none, none⟩ :=
  C8_determinism _ _ _ _ _ _ rfl rfl rfl

/-- C9: the present-but-false opt-out guard applies only at the profile
layer: when the profile carries no legacy keys and no structured setting,
the document's structured setting still wins for every document feature-flag
mapping, including one whose legacy keys are all present but false. -/
theorem C9_guard_only_at_profile_layer (cfg : ConfigToml) (profile : ConfigProfile)
    (m : WindowsSandboxModeToml)
    (hkeys : legacy_windows_sandbox_keys_present profile.features = false)
    (hprof : profile.windows.bind (fun w => w.sandbox) = none)
    (hdoc : cfg.windows.bind (fun w => w.sandbox) = some m) :
    resolve_windows_sandbox_mode cfg profile = some m := by
  have hmode := legacy_mode_none_of_keys_absent profile.features hkeys
  simp only [resolve_windows_sandbox_mode, hmode, hkeys]
  simp [Option.orElse, hprof, hdoc]

/-- Witness for C9: document flags `windows_sandbox = false` together with a
document structured `Elevated` setting yield `some Elevated`, not `none`. -/
theorem C9_witness :
    resolve_windows_sandbox_mode
      ⟨some ⟨some WindowsSandboxModeToml.Elevated⟩,
        some ⟨[("windows_sandbox", false)]⟩⟩
      ⟨none, none⟩ = some WindowsSandboxModeToml.Elevated :=
  C9_guard_only_at_profile_layer _ _ _ rfl rfl rfl

/-- C10: an absent feature-flag mapping behaves exactly like a present but
empty mapping: the legacy sub-algorithm returns `none` for both, the
keys-present guard is `false` for both, and `resolve_windows_sandbox_mode`
is unchanged between the two representations at either layer, for every
surrounding configuration. -/
theorem C10_absent_features_equals_empty (cfg : ConfigToml) (profile : ConfigProfile) :
    legacy_windows_sandbox_mode none = none ∧
    legacy_windows_sandbox_mode (some ⟨[]⟩) = none ∧
    legacy_windows_sandbox_keys_present none = false ∧
    legacy_windows_sandbox_keys_present (some ⟨[]⟩) = false ∧
    resolve_windows_sandbox_mode cfg { profile with features := none } =
      resolve_windows_sandbox_mode cfg { profile with features := some ⟨[]⟩ } ∧
    resolve_windows_sandbox_mode { cfg with features := none } profile =
      resolve_windows_sandbox_mode { cfg with features := some ⟨[]⟩ } profile :=
  ⟨rfl, rfl, rfl, rfl, rfl, rfl⟩

end WindowsSandbox
